import Mathlib

/-!
Shallow embedding of the QKart cart-and-checkout subsystem
(src/services/cart.service.js, src/models/user.model.js,
src/controllers/cart.controller.js).

The service functions are async JavaScript acting on MongoDB documents.
We embed them as pure Lean functions with the persisted state passed
explicitly: the user's stored cart is an `Option Cart` (the result of
`Cart.findOne({ email: user.email })`), the product catalog is a
`List Product` (`Product.findById` is a lookup in it), and each operation
returns its result together with the stored state after all `save()`
calls.  The numeric document fields (prices, wallet balances,
quantities) are embedded as integers — every value the service's
arithmetic touches in the claims below is integral, and integer
arithmetic is exact, matching the spec's "exact numeric accumulation".
`ApiError(statusCode, message)` failures are embedded with `Except`.
-/

namespace QKart

/-- Modelled from the spec: the configured default-address sentinel
(`config.default_address`, whose defining module is not part of the
sources; the spec calls it "a configured placeholder address value
meaning: user has not set a real address").  Its concrete value is
irrelevant to every operation below, which only ever compare a user's
address with it. -/
def default_address : String := "ADDRESS_NOT_SET"

/-- Modelled from the spec: `config.default_payment_option`, the
enumerated payment value a cart is created with (the concrete string
appears in the controller's example response). -/
def default_payment_option : String := "PAYMENT_OPTION_DEFAULT"

/-- A catalog product as embedded into cart items
(attributes listed in the controller's example response). -/
structure Product where
  id : String
  name : String
  category : String
  rating : ℕ
  cost : ℤ
  price : ℤ
  image : String
deriving Repr, DecidableEq

/-- A cart entry: the embedded product snapshot and a quantity.
The service stores the quantity exactly as provided (an integer). -/
structure CartItem where
  product : Product
  quantity : ℤ
deriving Repr, DecidableEq

/-- A cart document (one per user email). -/
structure Cart where
  email : String
  cartItems : List CartItem
  paymentOption : String
deriving Repr, DecidableEq

/-- The account fields the cart service reads and writes
(user.model.js: `email`, `walletMoney : Number`, `address : String`). -/
structure User where
  email : String
  walletMoney : ℤ
  address : String
deriving Repr, DecidableEq

/-- Error type ApiError(statusCode, message) from src/utils/ApiError. -/
structure ApiError where
  statusCode : ℕ
  message : String
deriving Repr, DecidableEq

deriving instance DecidableEq for Except

/-- Status constants (from the http-status package) used by the service. -/
def NOT_FOUND : ℕ := 404

def BAD_REQUEST : ℕ := 400

def INTERNAL_SERVER_ERROR : ℕ := 500

/-- Embedding of user.model.js:94-97, `userSchema.methods.hasSetNonDefaultAddress`:
the resolved value of the `async` method — `true` iff the user's address
differs from `config.default_address`. -/
def hasSetNonDefaultAddress (user : User) : Bool :=
  user.address != default_address

/-- Embedding of cart.service.js:17-23, `getCartByUser`: return the stored cart, or
fail with 404 "User does not have a cart". -/
def getCartByUser (stored : Option Cart) : Except ApiError Cart :=
  match stored with
  | none => .error ⟨NOT_FOUND, "User does not have a cart"⟩
  | some cart => .ok cart

/-- Embedding of cart.service.js:49-103, `addProductToCart`.  The source reads the
stored cart, then resolves the product via `Product.findById` (failing
with 400 before any cart is created), then creates an empty cart if none
was stored (`Cart.create` persists it and returns the document, so the
`if (!cart)` creation-failure guard at lines 70-75 never fires), then
rejects a duplicate product, and otherwise pushes `{ product, quantity }`
and saves (`save()` returns the document, so the `if (!updatedCart)`
guard at lines 95-99 never fires).  The returned pair is (result, stored
cart after the call).  `cartOrNew` embeds lines 62-76: the cart the rest
of the operation works on — the stored one, or a freshly created empty
cart with the default payment option. -/
def cartOrNew (user : User) (stored : Option Cart) : Cart :=
  match stored with
  | none => { email := user.email, cartItems := [], paymentOption := default_payment_option }
  | some c => c

/-- Embedding of cart.service.js:49-103 (continued): the full operation. -/
def addProductToCart (catalog : List Product) (user : User) (productId : String)
    (quantity : ℤ) (stored : Option Cart) : Except ApiError Cart × Option Cart :=
  match catalog.find? (fun p => p.id == productId) with
  | none => (.error ⟨BAD_REQUEST, "Product doesn't exist in database"⟩, stored)
  | some product =>
    let cart : Cart := cartOrNew user stored
    if cart.cartItems.any (fun item => item.product.id == productId) then
      (.error ⟨BAD_REQUEST,
        "Product already in cart. Use the cart sidebar to update or remove product from cart"⟩,
       some cart)
    else
      let updatedCart : Cart :=
        { cart with cartItems := cart.cartItems ++ [{ product := product, quantity := quantity }] }
      (.ok updatedCart, some updatedCart)

/-- Embedding of cart.service.js:155, `cartItem.quantity = quantity`: mutate the item
found by `cart.cartItems.find(...)`, i.e. the first item whose embedded
product id equals `productId`. -/
def setQuantityOfFirstMatch (items : List CartItem) (productId : String)
    (quantity : ℤ) : List CartItem :=
  match items with
  | [] => []
  | item :: rest =>
    if item.product.id == productId then { item with quantity := quantity } :: rest
    else item :: setQuantityOfFirstMatch rest productId quantity

/-- Embedding of cart.service.js:129-166, `updateProductInCart`: fail 400 if no cart
is stored; fail 400 if the product is not in the catalog; fail 400 if no
cart item matches; for `quantity > 0` set the matching item's quantity,
save and return the cart; otherwise filter out every item matching
`productId`, save, and return the `null` removed-sentinel (embedded as
`.ok none`).  The returned pair is (result, stored cart after the call). -/
def updateProductInCart (catalog : List Product) (productId : String)
    (quantity : ℤ) (stored : Option Cart) :
    Except ApiError (Option Cart) × Option Cart :=
  match stored with
  | none =>
    (.error ⟨BAD_REQUEST, "User does not have a cart. Use POST to create cart and add a product"⟩,
     none)
  | some cart =>
    match catalog.find? (fun p => p.id == productId) with
    | none => (.error ⟨BAD_REQUEST, "Product doesn't exist in database"⟩, stored)
    | some _ =>
      if cart.cartItems.any (fun item => item.product.id == productId) then
        if quantity > 0 then
          let updatedCart : Cart :=
            { cart with cartItems := setQuantityOfFirstMatch cart.cartItems productId quantity }
          (.ok (some updatedCart), some updatedCart)
        else
          let updatedCart : Cart :=
            { cart with cartItems :=
                cart.cartItems.filter (fun item => !(item.product.id == productId)) }
          (.ok none, some updatedCart)
      else (.error ⟨BAD_REQUEST, "Product not in cart"⟩, stored)

/-- Embedding of cart.service.js:185-202, `deleteProductFromCart`: fail 400 if no
cart is stored; locate the first matching item with `findIndex`, failing
400 "Product not in cart" at index `-1`; otherwise `splice` that single
index out, save, and return the cart.  The returned pair is
(result, stored cart after the call). -/
def deleteProductFromCart (productId : String) (stored : Option Cart) :
    Except ApiError Cart × Option Cart :=
  match stored with
  | none => (.error ⟨BAD_REQUEST, "User does not have a cart"⟩, none)
  | some cart =>
    match cart.cartItems.findIdx? (fun item => item.product.id == productId) with
    | none => (.error ⟨BAD_REQUEST, "Product not in cart"⟩, stored)
    | some i =>
      let updatedCart : Cart := { cart with cartItems := cart.cartItems.eraseIdx i }
      (.ok updatedCart, some updatedCart)

/-- Embedding of cart.service.js:227-229: `cartItems.reduce((total, item) =>
total + item.product.price * item.quantity, 0)` — exact left fold, no
intermediate rounding. -/
def cartTotal (items : List CartItem) : ℤ :=
  items.foldl (fun total item => total + item.product.price * item.quantity) 0

/-- The value tested by the guard at cart.service.js:223,
`if (!user.hasSetNonDefaultAddress())`: `hasSetNonDefaultAddress` is
declared `async` (user.model.js:94), and `checkout` calls it without
`await`, so the tested value is a pending Promise object — truthy in
JavaScript regardless of the Boolean it later resolves to.  The guard
therefore reads `true` for every user. -/
def addressGuardValue (_user : User) : Bool := true

/-- Embedding of cart.service.js:212-252, `checkout`: fail 404 if no cart is stored;
fail 400 "Cart is empty" on an empty item list; the "Address not set"
guard tests `addressGuardValue` (see there) and so never throws; compute
`cartTotal`; `parseFloat` applied to the numeric `walletMoney` and
`cartTotal` is the identity and is elided; fail 400 "Wallet balance is
insufficient" when the total exceeds the wallet; otherwise debit the
wallet, empty the cart, and persist both documents
(`Promise.all([user.save(), cart.save()])`).  The returned triple is
(result, user account after the call, stored cart after the call). -/
def checkout (user : User) (stored : Option Cart) :
    Except ApiError Cart × User × Option Cart :=
  match stored with
  | none => (.error ⟨NOT_FOUND, "User does not have a cart"⟩, user, none)
  | some cart =>
    if cart.cartItems.length == 0 then
      (.error ⟨BAD_REQUEST, "Cart is empty"⟩, user, stored)
    else if !(addressGuardValue user) then
      (.error ⟨BAD_REQUEST, "Address not set"⟩, user, stored)
    else
      let totalCost := cartTotal cart.cartItems
      if totalCost > user.walletMoney then
        (.error ⟨BAD_REQUEST, "Wallet balance is insufficient"⟩, user, stored)
      else
        let updatedUser : User := { user with walletMoney := user.walletMoney - totalCost }
        let emptiedCart : Cart := { cart with cartItems := [] }
        (.ok emptiedCart, updatedUser, some emptiedCart)

/-! Concrete fixtures:

Products and carts matching the spec's worked example
(items [price 20 × qty 2, price 15 × qty 1], cartTotal 55) and the
controller's example response document. -/

def ball : Product :=
  { id := "5f71c1ca04c69a5874e9fd45", name := "ball", category := "Sports",
    rating := 5, cost := 20, price := 20, image := "google.com" }

def bat : Product :=
  { id := "5f71c1ca04c69a5874e9fd46", name := "bat", category := "Sports",
    rating := 4, cost := 15, price := 15, image := "google.com" }

def exampleCatalog : List Product := [ball, bat]

def exampleCart : Cart :=
  { email := "crio-user@gmail.com",
    cartItems := [{ product := ball, quantity := 2 }, { product := bat, quantity := 1 }],
    paymentOption := default_payment_option }

/-- A user with a real (non-sentinel) address and wallet 100. -/
def richUser : User :=
  { email := "crio-user@gmail.com", walletMoney := 100, address := "221B Baker Street" }

/-- A user with a real (non-sentinel) address and wallet 50. -/
def poorUser : User :=
  { email := "crio-user@gmail.com", walletMoney := 50, address := "221B Baker Street" }

/-- A user whose address is exactly the default-address sentinel, wallet 100. -/
def sentinelUser : User :=
  { email := "crio-user@gmail.com", walletMoney := 100, address := default_address }

/-- A user whose address is exactly the default-address sentinel, wallet 55. -/
def sentinelUser55 : User :=
  { email := "crio-user@gmail.com", walletMoney := 55, address := default_address }

/-! Claim theorems. -/

/-- Claim C1: the claim states that `checkout(user)` fails with
`InvalidRequest` "Address not set" whenever the user's address equals the
configured default-address sentinel.  The code does not do this:
`hasSetNonDefaultAddress` is declared `async` (user.model.js:94) and
`checkout` calls it without `await` (cart.service.js:223), so the guard
tests an always-truthy pending Promise and never throws.  Evaluating the
embedded code at the failing input — a user whose address is exactly the
sentinel (so `hasSetNonDefaultAddress` resolves to `false`), with a
non-empty affordable cart — checkout succeeds and debits the wallet
instead of raising "Address not set". -/
theorem checkout_ignores_default_address :
    hasSetNonDefaultAddress sentinelUser = false
    ∧ (checkout sentinelUser (some exampleCart)).1
        = .ok { exampleCart with cartItems := [] }
    ∧ (checkout sentinelUser (some exampleCart)).2.1.walletMoney = 45 := by
  decide

/-- Claim C5: the claim states that violating any checkout precondition
(cart absent, cart empty, address equal to the sentinel, or cartTotal
exceeding walletMoney) fails with the documented message and leaves
wallet and cart unchanged.  Three of the four distinguished failures do
behave exactly so — in particular the spec's example (cartTotal 55,
walletMoney 50) fails with "Wallet balance is insufficient" and both
documents are untouched — but the address condition does not: for a
sentinel-address user with wallet 55 and the same cart, the un-awaited
async guard (cart.service.js:223) lets checkout succeed and debit the
wallet from 55 to 0, so the claim fails on the code at that input. -/
theorem checkout_failure_modes_eval :
    checkout poorUser (some exampleCart)
      = (.error ⟨BAD_REQUEST, "Wallet balance is insufficient"⟩, poorUser, some exampleCart)
    ∧ checkout richUser none
        = (.error ⟨NOT_FOUND, "User does not have a cart"⟩, richUser, none)
    ∧ checkout richUser (some { exampleCart with cartItems := [] })
        = (.error ⟨BAD_REQUEST, "Cart is empty"⟩, richUser,
           some { exampleCart with cartItems := [] })
    ∧ hasSetNonDefaultAddress sentinelUser55 = false
    ∧ (checkout sentinelUser55 (some exampleCart)).1
        = .ok { exampleCart with cartItems := [] }
    ∧ (checkout sentinelUser55 (some exampleCart)).2.1.walletMoney = 0 := by
  decide

/-- Claim C4, counterexample: the claim states that no cart reachable
through the core operations contains a CartItem with quantity ≤ 0.  But
`addProductToCart` stores the requested quantity unvalidated
(cart.service.js:91), so adding a catalog product with quantity 0 to a
user who has no cart yet leaves a persisted cart whose single item has
quantity 0. -/
theorem addProductToCart_stores_nonpositive_quantity :
    (addProductToCart exampleCatalog richUser ball.id 0 none).2
      = some { email := richUser.email,
               cartItems := [{ product := ball, quantity := 0 }],
               paymentOption := default_payment_option }
    ∧ (addProductToCart exampleCatalog richUser ball.id 0 none).1
      = .ok { email := richUser.email,
              cartItems := [{ product := ball, quantity := 0 }],
              paymentOption := default_payment_option } := by
  decide

/-- Claim C6, counterexample: the claim states that for every cart
containing an item matching `productId`, `updateProductInCart` with a
positive quantity sets that item's quantity and returns the updated
cart.  But the service resolves the product against the catalog first
(cart.service.js:138-144): when the product has meanwhile disappeared
from the catalog, the call fails with "Product doesn't exist in
database" even though the cart contains a matching item, and the cart is
not updated. -/
theorem updateProductInCart_needs_catalog_counterexample :
    updateProductInCart [] ball.id 3 (some exampleCart)
      = (.error ⟨BAD_REQUEST, "Product doesn't exist in database"⟩, some exampleCart) := by
  decide

/-- Claim C7, counterexample: the claim states that adding a product
already in the cart always fails with the "Product already in cart…"
message.  But the catalog-existence check runs first
(cart.service.js:53-59): with the product absent from the catalog yet
present in the cart, the call fails with "Product doesn't exist in
database" instead. -/
theorem addProductToCart_duplicate_counterexample :
    addProductToCart [] richUser ball.id 1 (some exampleCart)
      = (.error ⟨BAD_REQUEST, "Product doesn't exist in database"⟩, some exampleCart)
    ∧ (addProductToCart [] richUser ball.id 1 (some exampleCart)).1
      ≠ .error ⟨BAD_REQUEST,
          "Product already in cart. Use the cart sidebar to update or remove product from cart"⟩ := by
  decide

/-- Claim C10: when the productId is not in the catalog,
`addProductToCart` fails with "Product doesn't exist in database" before
any cart is created or mutated: the stored state after the call is
exactly the stored state before it — a user with no cart still has no
cart, and an existing cart's items are untouched. -/
theorem addProductToCart_unknown_product_leaves_state
    (catalog : List Product) (user : User) (productId : String) (quantity : ℤ)
    (stored : Option Cart)
    (hfind : catalog.find? (fun p => p.id == productId) = none) :
    addProductToCart catalog user productId quantity stored
      = (.error ⟨BAD_REQUEST, "Product doesn't exist in database"⟩, stored) := by
  simp [addProductToCart, hfind]

/-- Witness for C10: a concrete catalog not containing the requested id,
for a user with no stored cart. -/
theorem addProductToCart_unknown_product_leaves_state_witness :
    exampleCatalog.find? (fun p => p.id == "unknown-id") = none
    ∧ addProductToCart exampleCatalog richUser "unknown-id" 2 none
        = (.error ⟨BAD_REQUEST, "Product doesn't exist in database"⟩, none) :=
  ⟨by decide,
   addProductToCart_unknown_product_leaves_state exampleCatalog richUser "unknown-id" 2 none
     (by decide)⟩

/-- Claim C2: for every user with a non-empty cart, a non-default
address, and walletMoney ≥ cartTotal, checkout succeeds: it returns the
cart with `cartItems` emptied, the persisted account's wallet equals the
wallet before minus `cartTotal`, and both the updated account and the
updated (now empty) cart are the persisted state after the call. -/
theorem checkout_success (user : User) (cart : Cart)
    (hne : cart.cartItems ≠ [])
    (_haddr : hasSetNonDefaultAddress user = true)
    (hwallet : cartTotal cart.cartItems ≤ user.walletMoney) :
    checkout user (some cart)
      = (.ok { cart with cartItems := [] },
         { user with walletMoney := user.walletMoney - cartTotal cart.cartItems },
         some { cart with cartItems := [] }) := by
  have h1 : (cart.cartItems.length == 0) = false := by
    rw [beq_eq_false_iff_ne]
    simpa [List.length_eq_zero] using hne
  have h2 : ¬ cartTotal cart.cartItems > user.walletMoney := not_lt.mpr hwallet
  simp [checkout, addressGuardValue, h1, h2]

/-- Witness for C2: the spec's worked example — wallet 100, cart total
55, non-default address — checks out to wallet 45 and an empty cart. -/
theorem checkout_success_witness :
    exampleCart.cartItems ≠ []
    ∧ hasSetNonDefaultAddress richUser = true
    ∧ cartTotal exampleCart.cartItems ≤ richUser.walletMoney
    ∧ checkout richUser (some exampleCart)
        = (.ok { exampleCart with cartItems := [] },
           { richUser with walletMoney := richUser.walletMoney - cartTotal exampleCart.cartItems },
           some { exampleCart with cartItems := [] }) :=
  ⟨by decide, by decide, by decide,
   checkout_success richUser exampleCart (by decide) (by decide) (by decide)⟩

/-- Claim C3: `cartTotal` is the exact sum over the cart items of the
embedded snapshot's price times the item's quantity (the left fold of
cart.service.js:227-229 equals the mathematical sum — integer
arithmetic, no rounding anywhere), and on the spec's example cart
([price 20 × qty 2, price 15 × qty 1]) it computes 55, so the example
user with wallet 100 ends checkout with wallet 45. -/
theorem cartTotal_exact_sum_and_example (items : List CartItem) :
    cartTotal items
      = (items.map (fun item => item.product.price * item.quantity)).sum
    ∧ cartTotal exampleCart.cartItems = 55
    ∧ (checkout richUser (some exampleCart)).2.1.walletMoney = 45 := by
  refine ⟨?_, by decide, by decide⟩
  rw [List.sum_eq_foldl, List.foldl_map]
  rfl

/-- Claim C8: for every product found in the catalog and not already in
the user's cart, `addProductToCart` appends exactly one CartItem at the
end of the (possibly freshly created) cart's items, embedding the full
catalog snapshot and the given quantity, persists it, and returns it;
the item count grows by exactly one. -/
theorem addProductToCart_appends_new_item
    (catalog : List Product) (user : User) (productId : String) (quantity : ℤ)
    (product : Product) (stored : Option Cart)
    (hfind : catalog.find? (fun p => p.id == productId) = some product)
    (hnotin : (cartOrNew user stored).cartItems.any
        (fun item => item.product.id == productId) = false) :
    addProductToCart catalog user productId quantity stored
      = (.ok { cartOrNew user stored with
                cartItems := (cartOrNew user stored).cartItems
                  ++ [{ product := product, quantity := quantity }] },
         some { cartOrNew user stored with
                cartItems := (cartOrNew user stored).cartItems
                  ++ [{ product := product, quantity := quantity }] })
    ∧ ((cartOrNew user stored).cartItems
        ++ [({ product := product, quantity := quantity } : CartItem)]).length
      = (cartOrNew user stored).cartItems.length + 1 := by
  refine ⟨?_, by simp⟩
  simp [addProductToCart, hfind, hnotin]

/-- Witness for C8: adding the second catalog product to a user with no
stored cart creates the cart and appends the snapshot with quantity 4. -/
theorem addProductToCart_appends_new_item_witness :
    exampleCatalog.find? (fun p => p.id == bat.id) = some bat
    ∧ (cartOrNew richUser none).cartItems.any
        (fun item => item.product.id == bat.id) = false
    ∧ (addProductToCart exampleCatalog richUser bat.id 4 none
        = (.ok { cartOrNew richUser none with
                  cartItems := (cartOrNew richUser none).cartItems
                    ++ [{ product := bat, quantity := 4 }] },
           some { cartOrNew richUser none with
                  cartItems := (cartOrNew richUser none).cartItems
                    ++ [{ product := bat, quantity := 4 }] })
       ∧ ((cartOrNew richUser none).cartItems
            ++ [({ product := bat, quantity := 4 } : CartItem)]).length
          = (cartOrNew richUser none).cartItems.length + 1) :=
  ⟨by decide, by decide,
   addProductToCart_appends_new_item exampleCatalog richUser bat.id 4 bat none
     (by decide) (by decide)⟩

/-! Helper lemmas about a list split around its unique match. -/

theorem any_middle_true {α : Type} (p : α → Bool) (pre suf : List α) (item : α)
    (hitem : p item = true) : (pre ++ item :: suf).any p = true := by
  simp [hitem]

theorem findIdx?_middle {α : Type} (p : α → Bool) (pre suf : List α) (item : α)
    (hpre : ∀ x ∈ pre, p x = false) (hitem : p item = true) :
    (pre ++ item :: suf).findIdx? p = some pre.length := by
  rw [List.findIdx?_append, List.findIdx?_eq_none_iff.mpr hpre]
  simp [hitem]

theorem eraseIdx_middle {α : Type} (pre suf : List α) (item : α) :
    (pre ++ item :: suf).eraseIdx pre.length = pre ++ suf := by
  rw [List.eraseIdx_append_of_length_le (Nat.le_refl _)]
  simp

theorem filter_middle_out {α : Type} (p : α → Bool) (pre suf : List α) (item : α)
    (hpre : ∀ x ∈ pre, p x = true) (hitem : p item = false)
    (hsuf : ∀ x ∈ suf, p x = true) :
    (pre ++ item :: suf).filter p = pre ++ suf := by
  rw [List.filter_append, List.filter_eq_self.mpr hpre,
    List.filter_cons_of_neg (by simp [hitem]), List.filter_eq_self.mpr hsuf]

theorem setQuantityOfFirstMatch_middle (pre suf : List CartItem) (item : CartItem)
    (productId : String) (quantity : ℤ)
    (hpre : ∀ x ∈ pre, x.product.id ≠ productId) (hitem : item.product.id = productId) :
    setQuantityOfFirstMatch (pre ++ item :: suf) productId quantity
      = pre ++ { item with quantity := quantity } :: suf := by
  induction pre with
  | nil => simp [setQuantityOfFirstMatch, hitem]
  | cons head tail ih =>
    have hh : (head.product.id == productId) = false := by
      simpa using hpre head (List.mem_cons_self _ _)
    have htail : ∀ x ∈ tail, x.product.id ≠ productId :=
      fun x hx => hpre x (List.mem_cons_of_mem _ hx)
    simp [setQuantityOfFirstMatch, hh, ih htail]

/-- Claim C6 (amended): for every cart whose items contain exactly one
CartItem matching `productId` (the spec's per-cart uniqueness
invariant), and provided `productId` is still present in the catalog —
otherwise the call fails with "Product doesn't exist in database", see
the counterexample — `updateProductInCart` with `quantity > 0` sets
exactly that CartItem's quantity to the given value, leaves the item
count and every other item unchanged, and returns the updated cart;
with `quantity ≤ 0` it removes that CartItem entirely (item count drops
by one) and returns the removed-sentinel (`null`, embedded as `none`)
instead of the cart. -/
theorem updateProductInCart_policy_fork
    (catalog : List Product) (productId : String) (quantity : ℤ)
    (cart : Cart) (pre suf : List CartItem) (item : CartItem)
    (hsplit : cart.cartItems = pre ++ item :: suf)
    (hitem : item.product.id = productId)
    (hpre : ∀ x ∈ pre, x.product.id ≠ productId)
    (hsuf : ∀ x ∈ suf, x.product.id ≠ productId)
    (hcat : (catalog.find? (fun p => p.id == productId)).isSome = true) :
    (0 < quantity →
      updateProductInCart catalog productId quantity (some cart)
        = (.ok (some { cart with cartItems := pre ++ { item with quantity := quantity } :: suf }),
           some { cart with cartItems := pre ++ { item with quantity := quantity } :: suf })
      ∧ (pre ++ { item with quantity := quantity } :: suf).length = cart.cartItems.length)
    ∧ (quantity ≤ 0 →
      updateProductInCart catalog productId quantity (some cart)
        = (.ok none, some { cart with cartItems := pre ++ suf })
      ∧ (pre ++ suf).length + 1 = cart.cartItems.length) := by
  obtain ⟨prod, hprod⟩ := Option.isSome_iff_exists.mp hcat
  have hany : (pre ++ item :: suf).any (fun it => it.product.id == productId) = true :=
    any_middle_true _ pre suf item (by simp [hitem])
  constructor
  · intro hq
    have hset := setQuantityOfFirstMatch_middle pre suf item productId quantity hpre hitem
    constructor
    · simp [updateProductInCart, hprod, hsplit, hany, hq, hset]
    · simp [hsplit]
  · intro hq
    have hq' : ¬ quantity > 0 := not_lt.mpr hq
    have hfilter : (pre ++ item :: suf).filter
        (fun it => !(it.product.id == productId)) = pre ++ suf :=
      filter_middle_out _ pre suf item
        (fun x hx => by simp [hpre x hx]) (by simp [hitem])
        (fun x hx => by simp [hsuf x hx])
    constructor
    · simp [updateProductInCart, hprod, hsplit, hany, hq', hfilter]
    · simp [hsplit]
      omega

/-- Witness for C6: on the spec's example cart, with the catalog
containing both products, updating the first item (price-20 product) to
quantity 5 rewrites just that item, and updating it to quantity 0
removes it and signals removal. -/
theorem updateProductInCart_policy_fork_witness :
    exampleCart.cartItems
      = [] ++ { product := ball, quantity := 2 } :: [{ product := bat, quantity := 1 }]
    ∧ (exampleCatalog.find? (fun p => p.id == ball.id)).isSome = true
    ∧ ((0 < (5:ℤ) →
          updateProductInCart exampleCatalog ball.id 5 (some exampleCart)
            = (.ok (some { exampleCart with cartItems :=
                  [{ product := ball, quantity := 5 }, { product := bat, quantity := 1 }] }),
               some { exampleCart with cartItems :=
                  [{ product := ball, quantity := 5 }, { product := bat, quantity := 1 }] })
          ∧ ([{ product := ball, quantity := (5:ℤ) }, { product := bat, quantity := 1 }] : List CartItem).length
              = exampleCart.cartItems.length)
       ∧ ((5:ℤ) ≤ 0 →
          updateProductInCart exampleCatalog ball.id 5 (some exampleCart)
            = (.ok none, some { exampleCart with cartItems := [{ product := bat, quantity := 1 }] })
          ∧ (([{ product := bat, quantity := 1 }] : List CartItem)).length + 1
              = exampleCart.cartItems.length)) :=
  ⟨by decide, by decide,
   updateProductInCart_policy_fork exampleCatalog ball.id 5 exampleCart
     [] [{ product := bat, quantity := 1 }] { product := ball, quantity := 2 }
     (by decide) (by decide) (by decide) (by decide) (by decide)⟩

/-- Claim C9: deleting a product whose identifier occurs exactly once in
the cart (the spec's per-cart uniqueness invariant) removes exactly that
CartItem, preserving the relative order of the remaining items, persists
and returns the updated cart; an immediate second call for the same
productId on the resulting stored state fails with InvalidRequest
"Product not in cart" and changes nothing. -/
theorem deleteProductFromCart_removes_then_missing
    (productId : String) (cart : Cart) (pre suf : List CartItem) (item : CartItem)
    (hsplit : cart.cartItems = pre ++ item :: suf)
    (hitem : item.product.id = productId)
    (hpre : ∀ x ∈ pre, x.product.id ≠ productId)
    (hsuf : ∀ x ∈ suf, x.product.id ≠ productId) :
    deleteProductFromCart productId (some cart)
      = (.ok { cart with cartItems := pre ++ suf },
         some { cart with cartItems := pre ++ suf })
    ∧ deleteProductFromCart productId (deleteProductFromCart productId (some cart)).2
      = (.error ⟨BAD_REQUEST, "Product not in cart"⟩,
         some { cart with cartItems := pre ++ suf }) := by
  have hfind : (pre ++ item :: suf).findIdx?
      (fun it => it.product.id == productId) = some pre.length :=
    findIdx?_middle _ pre suf item (fun x hx => by simp [hpre x hx]) (by simp [hitem])
  have herase : (pre ++ item :: suf).eraseIdx pre.length = pre ++ suf :=
    eraseIdx_middle pre suf item
  have h1 : deleteProductFromCart productId (some cart)
      = (.ok { cart with cartItems := pre ++ suf },
         some { cart with cartItems := pre ++ suf }) := by
    simp [deleteProductFromCart, hsplit, hfind, herase]
  refine ⟨h1, ?_⟩
  rw [h1]
  have hnone : (pre ++ suf).findIdx? (fun it => it.product.id == productId) = none := by
    rw [List.findIdx?_eq_none_iff]
    intro x hx
    rcases List.mem_append.mp hx with h | h
    · simp [hpre x h]
    · simp [hsuf x h]
  simp [deleteProductFromCart, hnone]

/-- Witness for C9: deleting the price-20 product from the spec's
example cart leaves only the price-15 item, and deleting it again fails
with "Product not in cart". -/
theorem deleteProductFromCart_removes_then_missing_witness :
    exampleCart.cartItems = [] ++ { product := ball, quantity := 2 } :: [{ product := bat, quantity := 1 }]
    ∧ (deleteProductFromCart ball.id (some exampleCart)
        = (.ok { exampleCart with cartItems := ([] : List CartItem) ++ [{ product := bat, quantity := 1 }] },
           some { exampleCart with cartItems := ([] : List CartItem) ++ [{ product := bat, quantity := 1 }] })
       ∧ deleteProductFromCart ball.id (deleteProductFromCart ball.id (some exampleCart)).2
          = (.error ⟨BAD_REQUEST, "Product not in cart"⟩,
             some { exampleCart with cartItems := ([] : List CartItem) ++ [{ product := bat, quantity := 1 }] })) :=
  ⟨by decide,
   deleteProductFromCart_removes_then_missing ball.id exampleCart
     [] [{ product := bat, quantity := 1 }] { product := ball, quantity := 2 }
     (by decide) (by decide) (by decide) (by decide)⟩

/-- Claim C7 (amended): for every cart already containing an item whose
product identifier equals `productId`, `addProductToCart` fails with an
InvalidRequest error for every requested quantity and leaves the stored
cart unchanged; the message is "Product already in cart…" whenever the
product is still present in the catalog, and "Product doesn't exist in
database" when it is not (the catalog check runs first — see the
counterexample). -/
theorem addProductToCart_duplicate_rejected
    (catalog : List Product) (user : User) (productId : String) (quantity : ℤ)
    (cart : Cart)
    (hdup : cart.cartItems.any (fun item => item.product.id == productId) = true) :
    ((catalog.find? (fun p => p.id == productId)).isSome = true →
      addProductToCart catalog user productId quantity (some cart)
        = (.error ⟨BAD_REQUEST,
            "Product already in cart. Use the cart sidebar to update or remove product from cart"⟩,
           some cart))
    ∧ (catalog.find? (fun p => p.id == productId) = none →
      addProductToCart catalog user productId quantity (some cart)
        = (.error ⟨BAD_REQUEST, "Product doesn't exist in database"⟩, some cart)) := by
  constructor
  · intro h
    obtain ⟨prod, hprod⟩ := Option.isSome_iff_exists.mp h
    simp [addProductToCart, hprod, cartOrNew, hdup]
  · intro h
    simp [addProductToCart, h]

/-- Witness for C7 (amended): with both catalog products present, adding
the already-carted price-20 product fails with the duplicate message and
the stored cart is unchanged. -/
theorem addProductToCart_duplicate_rejected_witness :
    exampleCart.cartItems.any (fun item => item.product.id == ball.id) = true
    ∧ (((exampleCatalog.find? (fun p => p.id == ball.id)).isSome = true →
        addProductToCart exampleCatalog richUser ball.id 7 (some exampleCart)
          = (.error ⟨BAD_REQUEST,
              "Product already in cart. Use the cart sidebar to update or remove product from cart"⟩,
             some exampleCart))
      ∧ (exampleCatalog.find? (fun p => p.id == ball.id) = none →
        addProductToCart exampleCatalog richUser ball.id 7 (some exampleCart)
          = (.error ⟨BAD_REQUEST, "Product doesn't exist in database"⟩, some exampleCart))) :=
  ⟨by decide,
   addProductToCart_duplicate_rejected exampleCatalog richUser ball.id 7 exampleCart
     (by decide)⟩

/-! The positive-quantity invariant. -/

/-- All item quantities in a cart are positive. -/
def allQuantitiesPos (cart : Cart) : Bool :=
  cart.cartItems.all (fun item => decide (0 < item.quantity))

/-- The positive-quantity invariant on a stored state (no cart, or a
cart whose quantities are all positive). -/
def storedQuantitiesPos : Option Cart → Bool
  | none => true
  | some cart => allQuantitiesPos cart

theorem allPos_setQuantityOfFirstMatch (items : List CartItem) (productId : String)
    (quantity : ℤ)
    (hall : items.all (fun item => decide (0 < item.quantity)) = true)
    (hq : 0 < quantity) :
    (setQuantityOfFirstMatch items productId quantity).all
      (fun item => decide (0 < item.quantity)) = true := by
  induction items with
  | nil => simp [setQuantityOfFirstMatch]
  | cons head tail ih =>
    simp only [List.all_cons, Bool.and_eq_true] at hall
    by_cases h : (head.product.id == productId) = true
    · simp only [setQuantityOfFirstMatch, h, if_true, List.all_cons, Bool.and_eq_true]
      exact ⟨by simpa using hq, hall.2⟩
    · simp only [Bool.not_eq_true] at h
      simp only [setQuantityOfFirstMatch, h, Bool.false_eq_true, if_false,
        List.all_cons, Bool.and_eq_true]
      exact ⟨hall.1, ih hall.2⟩

/-- Claim C4 (amended): the operations preserve the positive-quantity
invariant — `updateProductInCart` (for every requested quantity: a
positive one overwrites an item's quantity with that positive value, a
non-positive one deletes the item instead of storing it),
`deleteProductFromCart` and `checkout` unconditionally, and
`addProductToCart` whenever the requested quantity is positive.  The
restriction on `addProductToCart` is necessary: it stores the requested
quantity unvalidated, so a call with quantity ≤ 0 creates a violating
item (see the counterexample). -/
theorem positive_quantities_preserved
    (catalog : List Product) (user : User) (productId : String) (quantity : ℤ)
    (stored : Option Cart)
    (hstored : storedQuantitiesPos stored = true) :
    (0 < quantity →
      storedQuantitiesPos (addProductToCart catalog user productId quantity stored).2 = true)
    ∧ storedQuantitiesPos (updateProductInCart catalog productId quantity stored).2 = true
    ∧ storedQuantitiesPos (deleteProductFromCart productId stored).2 = true
    ∧ storedQuantitiesPos (checkout user stored).2.2 = true := by
  have hcart : (cartOrNew user stored).cartItems.all
      (fun item => decide (0 < item.quantity)) = true := by
    cases stored with
    | none => rfl
    | some c => exact hstored
  refine ⟨?_, ?_, ?_, ?_⟩
  · intro hq
    cases hfind : catalog.find? (fun p => p.id == productId) with
    | none => simpa [addProductToCart, hfind] using hstored
    | some prod =>
      by_cases hdup : (cartOrNew user stored).cartItems.any
          (fun item => item.product.id == productId) = true
      · simpa [addProductToCart, hfind, hdup, storedQuantitiesPos, allQuantitiesPos]
          using hcart
      · simp only [Bool.not_eq_true] at hdup
        simp only [addProductToCart, hfind, hdup, Bool.false_eq_true, if_false,
          storedQuantitiesPos, allQuantitiesPos, List.all_append, Bool.and_eq_true]
        exact ⟨hcart, by simpa using hq⟩
  · cases stored with
    | none => simp [updateProductInCart, storedQuantitiesPos]
    | some cart =>
      have hall : cart.cartItems.all (fun item => decide (0 < item.quantity)) = true :=
        hstored
      cases hfind : catalog.find? (fun p => p.id == productId) with
      | none => simpa [updateProductInCart, hfind] using hstored
      | some prod =>
        by_cases hin : cart.cartItems.any (fun item => item.product.id == productId) = true
        · by_cases hq : quantity > 0
          · simpa [updateProductInCart, hfind, hin, hq, storedQuantitiesPos,
              allQuantitiesPos] using allPos_setQuantityOfFirstMatch _ _ _ hall hq
          · have hfilter : (cart.cartItems.filter
                (fun item => !(item.product.id == productId))).all
                (fun item => decide (0 < item.quantity)) = true := by
              rw [List.all_eq_true]
              intro x hx
              exact List.all_eq_true.mp hall x (List.mem_of_mem_filter hx)
            simpa [updateProductInCart, hfind, hin, hq, storedQuantitiesPos,
              allQuantitiesPos] using hfilter
        · simp only [Bool.not_eq_true] at hin
          simpa [updateProductInCart, hfind, hin] using hstored
  · cases stored with
    | none => simp [deleteProductFromCart, storedQuantitiesPos]
    | some cart =>
      have hall : cart.cartItems.all (fun item => decide (0 < item.quantity)) = true :=
        hstored
      cases hfind : cart.cartItems.findIdx? (fun item => item.product.id == productId) with
      | none => simpa [deleteProductFromCart, hfind] using hstored
      | some i =>
        have herase : (cart.cartItems.eraseIdx i).all
            (fun item => decide (0 < item.quantity)) = true := by
          rw [List.all_eq_true]
          intro x hx
          exact List.all_eq_true.mp hall x (List.mem_of_mem_eraseIdx hx)
        simpa [deleteProductFromCart, hfind, storedQuantitiesPos, allQuantitiesPos]
          using herase
  · cases stored with
    | none => simp [checkout, storedQuantitiesPos]
    | some cart =>
      by_cases h0 : (cart.cartItems.length == 0) = true
      · simpa [checkout, h0] using hstored
      · simp only [Bool.not_eq_true] at h0
        by_cases h2 : cartTotal cart.cartItems > user.walletMoney
        · simpa [checkout, h0, h2, addressGuardValue] using hstored
        · simp [checkout, h0, h2, addressGuardValue, storedQuantitiesPos, allQuantitiesPos]

/-- Witness for C4 (amended): the invariant holds on the example cart
and is preserved by each operation at concrete arguments (adding a third
product with quantity 3, updating or deleting the price-20 product,
checking out). -/
theorem positive_quantities_preserved_witness :
    storedQuantitiesPos (some exampleCart) = true
    ∧ ((0 < (3:ℤ) →
        storedQuantitiesPos
          (addProductToCart exampleCatalog richUser ball.id 3 (some exampleCart)).2 = true)
      ∧ storedQuantitiesPos
          (updateProductInCart exampleCatalog ball.id 3 (some exampleCart)).2 = true
      ∧ storedQuantitiesPos
          (deleteProductFromCart ball.id (some exampleCart)).2 = true
      ∧ storedQuantitiesPos (checkout richUser (some exampleCart)).2.2 = true) :=
  ⟨by decide,
   positive_quantities_preserved exampleCatalog richUser ball.id 3 (some exampleCart)
     (by decide)⟩

end QKart
